import Mathlib

/-!
Shallow embedding of `libwifi_system_iface/bridge_tool.cpp`
(`android::wifi_system::BridgeTool`), a stateless adapter translating
bridge-lifecycle and membership intents into Linux bridging-control ioctl
requests.  The kernel side (socket creation, ioctl outcomes, name/index
resolution, the contents of uninitialized stack memory) is modelled as
explicit oracle parameters; each operation returns the boolean result of
the corresponding function in the source, together with the trace of
kernel requests it issued and, for the enumeration operations, the final
contents of the caller-supplied output vector.
-/

namespace BridgeTool

/-- IFNAMSIZ: size in bytes of a kernel interface-name field, terminator
included (so at most 15 usable characters). -/
def IFNAMSIZ : Nat := 16

/-- MAX_PORTS: capacity, in `int` slots, of the fixed enumeration buffers. -/
def MAX_PORTS : Nat := 1024

/-- sizeof(int) on the target platform: each enumeration buffer slot
occupies 4 bytes. -/
def intSize : Nat := 4

/-- Outcome of a single ioctl attempt as distinguished by
TEMP_FAILURE_RETRY: success, a failure with errno = EINTR (the call was
interrupted), or any other failure (EBADF, ENODEV, EPERM, ...). -/
inductive IoctlRes
  | success
  | eintr
  | failure
deriving DecidableEq

/-- One kernel request issued by an operation, recorded in the trace of
the operation.  The name carried by `addif` / `delif` / `getPortList` is
the content of the 16-byte `ifr_name` field the code populated; `addbr` /
`delbr` carry the raw C string whose pointer is passed to the ioctl. -/
inductive KernelOp
  | addbr (brName : String)
  | delbr (brName : String)
  | addif (brName : String) (ifindex : Nat)
  | delif (brName : String) (ifindex : Nat)
  | getBridges
  | getPortList (brName : String)
deriving DecidableEq

/-- strlcpy(dst, src, siz): the C string left in `dst` is `src` truncated
to `siz - 1` characters; the result is always NUL-terminated. -/
def strlcpy (src : String) (siz : Nat) : String :=
  ⟨src.data.take (siz - 1)⟩

/-- TEMP_FAILURE_RETRY(exp): re-issues `exp` as long as it fails with
errno = EINTR.  `rs` lists the outcomes the kernel would give to the
successive attempts; the result is the first listed outcome that is not
an interruption together with the number of attempts issued, or `none`
when every listed outcome is an interruption (the loop keeps retrying
beyond the supplied outcomes). -/
def tempFailureRetry : List IoctlRes → Option (IoctlRes × Nat)
  | [] => none
  | r :: rs =>
      if r = IoctlRes.eintr then
        (tempFailureRetry rs).map (fun p => (p.1, p.2 + 1))
      else
        some (r, 1)

/-- Outcomes seen by successive ioctl attempts on the socket of the
operation: the answers `rs` of the kernel when the socket was obtained,
and a single immediate EBADF-style failure when it was not (an ioctl on
an invalid descriptor fails at once and is not an interruption, so
TEMP_FAILURE_RETRY does not re-issue it). -/
def sockOutcomes (sockOk : Bool) (rs : List IoctlRes) : List IoctlRes :=
  if sockOk then rs else [IoctlRes.failure]

/-- Result of one of the four mutation operations: the boolean the
function returns and the trace of kernel requests it issued. -/
structure MutResult where
  ok : Bool
  trace : List KernelOp
deriving DecidableEq

/-- BridgeTool::createBridge: opens a datagram socket without checking
the result and issues SIOCBRADDBR with the raw bridge-name C string under
TEMP_FAILURE_RETRY; returns true exactly when the ioctl succeeds.
`none` models the retry loop never seeing a non-interrupted outcome. -/
def createBridge (sockOk : Bool) (rs : List IoctlRes) (brName : String) :
    Option MutResult :=
  (tempFailureRetry (sockOutcomes sockOk rs)).map fun p =>
    ⟨p.1 = IoctlRes.success, List.replicate p.2 (KernelOp.addbr brName)⟩

/-- BridgeTool::deleteBridge: same shape as createBridge with
SIOCBRDELBR. -/
def deleteBridge (sockOk : Bool) (rs : List IoctlRes) (brName : String) :
    Option MutResult :=
  (tempFailureRetry (sockOutcomes sockOk rs)).map fun p =>
    ⟨p.1 = IoctlRes.success, List.replicate p.2 (KernelOp.delbr brName)⟩

/-- BridgeTool::addIfaceToBridge: resolves `ifName` with if_nametoindex
(oracle `nameToIndex`; 0 means the interface does not exist) and returns
false at once, with no socket and no request, when resolution yields 0;
otherwise fills `ifr_name` with strlcpy(·, br_name, IFNAMSIZ), opens the
socket without checking it, and issues SIOCBRADDIF under
TEMP_FAILURE_RETRY. -/
def addIfaceToBridge (sockOk : Bool) (nameToIndex : String → Nat)
    (rs : List IoctlRes) (brName ifName : String) : Option MutResult :=
  let idx := nameToIndex ifName
  if idx = 0 then
    some ⟨false, []⟩
  else
    (tempFailureRetry (sockOutcomes sockOk rs)).map fun p =>
      ⟨p.1 = IoctlRes.success,
        List.replicate p.2 (KernelOp.addif (strlcpy brName IFNAMSIZ) idx)⟩

/-- BridgeTool::removeIfaceFromBridge: same shape as addIfaceToBridge
with SIOCBRDELIF. -/
def removeIfaceFromBridge (sockOk : Bool) (nameToIndex : String → Nat)
    (rs : List IoctlRes) (brName ifName : String) : Option MutResult :=
  let idx := nameToIndex ifName
  if idx = 0 then
    some ⟨false, []⟩
  else
    (tempFailureRetry (sockOutcomes sockOk rs)).map fun p =>
      ⟨p.1 = IoctlRes.success,
        List.replicate p.2 (KernelOp.delif (strlcpy brName IFNAMSIZ) idx)⟩

/-- Contents of the 1024-int stack buffer after
`memset(ifindices, 0, MAX_PORTS)`: MAX_PORTS counts bytes here, so only
the first MAX_PORTS / sizeof(int) = 256 slots are cleared; the remaining
768 slots keep their previous (uninitialized) contents `garbage`. -/
def memsetBuffer (garbage : List Int) : List Int :=
  List.replicate (MAX_PORTS / intSize) 0 ++ garbage.drop (MAX_PORTS / intSize)

/-- The kernel writing the index list `ws` into the leading slots of the
buffer `buf`, leaving the remaining slots untouched. -/
def writeSlots (buf ws : List Int) : List Int :=
  ws ++ buf.drop ws.length

/-- Contribution of one buffer slot to the output: a zero index is
skipped, a nonzero index is resolved with if_indextoname (oracle
`indexToName`) and skipped when resolution fails. -/
def resolveSlot (indexToName : Int → Option String) (idx : Int) :
    Option String :=
  if idx = 0 then none else indexToName idx

/-- Result of one of the two enumeration operations: the boolean the
function returns, the trace of kernel requests issued, and the final
contents of the caller-supplied output vector. -/
structure EnumResult where
  ok : Bool
  trace : List KernelOp
  out : List String
deriving DecidableEq

/-- BridgeTool::GetBridges: returns false at once, with no request, if
the socket cannot be opened; otherwise zeroes the buffer with the short
memset, issues one SIOCGIFBR (BRCTL_GET_BRIDGES) request with no retry
wrapper, and returns true.  `kernelBridges = some ws` models the ioctl
writing the indices `ws` into the leading buffer slots and returning
their count `num`; `none` models the ioctl failing with a negative return
value and writing nothing, in which case the scan loop
`for (i = 0; i < num; i++)` runs zero times.  The loop scans the first
`num` slots, skips zero and unresolvable indices, and appends each
resolved name to the caller-supplied vector `bridges`. -/
def GetBridges (sockOk : Bool) (garbage : List Int)
    (kernelBridges : Option (List Int)) (indexToName : Int → Option String)
    (bridges : List String) : EnumResult :=
  if sockOk then
    match kernelBridges with
    | none => ⟨true, [KernelOp.getBridges], bridges⟩
    | some ws =>
        let buf := writeSlots (memsetBuffer garbage) ws
        ⟨true, [KernelOp.getBridges],
          bridges ++ (buf.take ws.length).filterMap (resolveSlot indexToName)⟩
  else
    ⟨false, [], bridges⟩

/-- BridgeTool::GetInterfacesInBridge: returns false at once, with no
request, if the socket cannot be opened; otherwise zeroes the buffer with
the short memset, fills `ifr_name` with strlcpy(·, br_name, IFNAMSIZ),
and issues one SIOCDEVPRIVATE (BRCTL_GET_PORT_LIST) request with no retry
wrapper.  `kernelPorts = none` models the ioctl failing, in which case
the function returns false with nothing appended; `some ws` models it
writing the indices `ws` into the leading buffer slots.  On success the
loop scans all MAX_PORTS slots, skips zero and unresolvable indices,
appends each resolved name to the caller-supplied vector `interfaces`,
and the function returns true. -/
def GetInterfacesInBridge (sockOk : Bool) (garbage : List Int)
    (kernelPorts : Option (List Int)) (indexToName : Int → Option String)
    (brName : String) (interfaces : List String) : EnumResult :=
  if sockOk then
    let field := strlcpy brName IFNAMSIZ
    match kernelPorts with
    | none => ⟨false, [KernelOp.getPortList field], interfaces⟩
    | some ws =>
        let buf := writeSlots (memsetBuffer garbage) ws
        ⟨true, [KernelOp.getPortList field],
          interfaces ++ (buf.take MAX_PORTS).filterMap (resolveSlot indexToName)⟩
  else
    ⟨false, [], interfaces⟩

/-- Kernel-side contract of the get-bridges enumeration (spec section 6):
the call fills the fixed-capacity buffer with at most its capacity
(args[2] = MAX_PORTS) of bridge indices, taking the first ones in kernel
iteration order, and returns how many it wrote. -/
def kernelGetBridges (allBridges : List Int) : List Int :=
  allBridges.take MAX_PORTS

/-- Concrete if_indextoname oracle used by witnesses: index 3 is a bridge
named "br0", index 5 an interface named "wlan0", everything else does not
resolve. -/
def sampleResolver : Int → Option String :=
  fun i => if i = 3 then some "br0" else if i = 5 then some "wlan0" else none

end BridgeTool

namespace BridgeTool

/-! Helper lemmas shared by the claim theorems. -/

theorem resolveSlot_zero (f : Int → Option String) : resolveSlot f 0 = none :=
  rfl

theorem filterMap_resolveSlot_replicate_zero (f : Int → Option String)
    (n : Nat) : (List.replicate n (0 : Int)).filterMap (resolveSlot f) = [] := by
  induction n with
  | zero => rfl
  | succ n ih => simp [List.replicate_succ, ih, resolveSlot]

set_option maxRecDepth 4096 in
theorem memsetBuffer_eq (garbage : List Int) :
    memsetBuffer garbage = List.replicate 256 0 ++ garbage.drop 256 := by
  simp [memsetBuffer, MAX_PORTS, intSize]

theorem memsetBuffer_zero :
    memsetBuffer (List.replicate MAX_PORTS 0) = List.replicate MAX_PORTS 0 := by
  rw [memsetBuffer_eq, List.drop_replicate, ← List.replicate_add]
  norm_num [MAX_PORTS]

set_option maxRecDepth 4096 in
theorem memsetBuffer_length (garbage : List Int)
    (hg : garbage.length = MAX_PORTS) :
    (memsetBuffer garbage).length = MAX_PORTS := by
  rw [memsetBuffer_eq]
  simp [hg, MAX_PORTS]

theorem writeSlots_length (buf ws : List Int) (hb : buf.length = MAX_PORTS)
    (hw : ws.length ≤ MAX_PORTS) :
    (writeSlots buf ws).length = MAX_PORTS := by
  simp [writeSlots, hb]
  omega

theorem writeSlots_take_written (buf ws : List Int) :
    (writeSlots buf ws).take ws.length = ws := by
  simp [writeSlots, List.take_left]

theorem writeSlots_zero (ws : List Int) :
    writeSlots (List.replicate MAX_PORTS 0) ws =
      ws ++ List.replicate (MAX_PORTS - ws.length) 0 := by
  simp [writeSlots, List.drop_replicate]

theorem tempFailureRetry_eintr_append (k : Nat) (r : IoctlRes)
    (rs : List IoctlRes) (hr : r ≠ IoctlRes.eintr) :
    tempFailureRetry (List.replicate k IoctlRes.eintr ++ r :: rs) =
      some (r, k + 1) := by
  induction k with
  | zero => simp [tempFailureRetry, hr]
  | succ k ih => simp [List.replicate_succ, tempFailureRetry, ih]

end BridgeTool

/-! Claim theorems. -/

namespace BridgeTool.Claims

/-- C2, counterexample: the claim says every operation detects a failed
handle acquisition and returns without issuing any kernel ioctl request
on the invalid handle.  createBridge does not check the socket it opened:
with the socket failing it still issues the SIOCBRADDBR request (one
entry in the trace), so the trace is not empty. -/
theorem C2_mutation_ioctl_on_invalid_handle :
    createBridge false [] "br0" = some ⟨false, [KernelOp.addbr "br0"]⟩ ∧
    ([KernelOp.addbr "br0"] : List KernelOp) ≠ [] := by
  exact ⟨rfl, by simp⟩

/-- C2, amended: when the control handle cannot be obtained, the two
enumeration operations report failure without issuing any request, while
the four mutation operations (after the interface-index check, where
applicable) do not check the handle: they issue their single request on
the invalid handle, the request fails at once, and they report failure. -/
theorem C2_handle_failure_amended (nameToIndex : String → Nat)
    (rs : List IoctlRes) (garbage : List Int) (kp : Option (List Int))
    (f : Int → Option String) (brName ifName : String) (v : List String)
    (hidx : nameToIndex ifName ≠ 0) :
    GetBridges false garbage kp f v = ⟨false, [], v⟩ ∧
    GetInterfacesInBridge false garbage kp f brName v = ⟨false, [], v⟩ ∧
    createBridge false rs brName = some ⟨false, [KernelOp.addbr brName]⟩ ∧
    deleteBridge false rs brName = some ⟨false, [KernelOp.delbr brName]⟩ ∧
    addIfaceToBridge false nameToIndex rs brName ifName =
      some ⟨false,
        [KernelOp.addif (strlcpy brName IFNAMSIZ) (nameToIndex ifName)]⟩ ∧
    removeIfaceFromBridge false nameToIndex rs brName ifName =
      some ⟨false,
        [KernelOp.delif (strlcpy brName IFNAMSIZ) (nameToIndex ifName)]⟩ := by
  refine ⟨rfl, rfl, rfl, rfl, ?_, ?_⟩ <;>
    simp [addIfaceToBridge, removeIfaceFromBridge, hidx, sockOutcomes,
      tempFailureRetry]

/-- C2, witness for the amended theorem at a concrete input. -/
theorem C2_handle_failure_amended_witness :
    (fun _ : String => (5 : Nat)) "wlan0" ≠ 0 ∧
    createBridge false [] "br0" = some ⟨false, [KernelOp.addbr "br0"]⟩ ∧
    addIfaceToBridge false (fun _ => 5) [] "br0" "wlan0" =
      some ⟨false, [KernelOp.addif (strlcpy "br0" IFNAMSIZ) 5]⟩ := by
  have h := C2_handle_failure_amended (fun _ => 5) [] [] none
    (fun _ => none) "br0" "wlan0" [] (by decide)
  exact ⟨by decide, h.2.2.1, h.2.2.2.2.1⟩

/-- C3: when name-to-index resolution of the interface yields zero, both
addIfaceToBridge and removeIfaceFromBridge return failure immediately and
the trace of issued kernel requests is empty — no bridge-add-interface or
bridge-delete-interface request is made. -/
theorem C3_unresolved_iface_fails_without_request (sockOk : Bool)
    (nameToIndex : String → Nat) (rs : List IoctlRes)
    (brName ifName : String) (h : nameToIndex ifName = 0) :
    addIfaceToBridge sockOk nameToIndex rs brName ifName =
      some ⟨false, []⟩ ∧
    removeIfaceFromBridge sockOk nameToIndex rs brName ifName =
      some ⟨false, []⟩ := by
  constructor <;> simp [addIfaceToBridge, removeIfaceFromBridge, h]

/-- C3, witness at a concrete input. -/
theorem C3_unresolved_iface_fails_without_request_witness :
    (fun _ : String => (0 : Nat)) "wlan0" = 0 ∧
    addIfaceToBridge true (fun _ => 0) [IoctlRes.success] "br0" "wlan0" =
      some ⟨false, []⟩ ∧
    removeIfaceFromBridge true (fun _ => 0) [IoctlRes.success] "br0" "wlan0" =
      some ⟨false, []⟩ := by
  have h := C3_unresolved_iface_fails_without_request true (fun _ => 0)
    [IoctlRes.success] "br0" "wlan0" rfl
  exact ⟨rfl, h.1, h.2⟩

/-- C6: after successful handle acquisition, GetInterfacesInBridge
returns failure exactly when the SIOCDEVPRIVATE (get-port-list) call
itself fails, and in that case no interface names are appended to the
caller-supplied vector. -/
theorem C6_iface_enum_failure_iff (garbage : List Int)
    (kp : Option (List Int)) (f : Int → Option String) (brName : String)
    (v : List String) :
    ((GetInterfacesInBridge true garbage kp f brName v).ok = false ↔
      kp = none) ∧
    (GetInterfacesInBridge true garbage none f brName v).out = v := by
  cases kp <;> simp [GetInterfacesInBridge]

/-- C9: whenever handle acquisition succeeds, GetBridges returns success
unconditionally; in particular when the SIOCGIFBR enumeration ioctl
fails (negative count, modelled by `none`), the operation still returns
success with no names appended. -/
theorem C9_getBridges_success_unconditional (garbage : List Int)
    (kp : Option (List Int)) (f : Int → Option String) (v : List String) :
    (GetBridges true garbage kp f v).ok = true ∧
    GetBridges true garbage none f v = ⟨true, [KernelOp.getBridges], v⟩ := by
  cases kp <;> simp [GetBridges]

/-- C10: both enumeration operations only append to the caller-supplied
output vector: for every initial contents `v`, the final contents are
`v` followed by the names the call would produce on an empty vector, so
the preexisting elements are preserved unchanged and in place. -/
theorem C10_output_vector_append_only (sockOk : Bool) (garbage : List Int)
    (kp : Option (List Int)) (f : Int → Option String) (brName : String)
    (v : List String) :
    (GetBridges sockOk garbage kp f v).out =
      v ++ (GetBridges sockOk garbage kp f []).out ∧
    (GetInterfacesInBridge sockOk garbage kp f brName v).out =
      v ++ (GetInterfacesInBridge sockOk garbage kp f brName []).out := by
  cases sockOk <;> cases kp <;> simp [GetBridges, GetInterfacesInBridge]

end BridgeTool.Claims

namespace BridgeTool.Claims

/-- C8, counterexample: the claim says every failure of an underlying
kernel call, including an interrupted one, is reported as-is after a
single attempt.  createBridge wraps its ioctl in TEMP_FAILURE_RETRY:
when the first attempt fails with EINTR and the second succeeds, the
request is issued twice and the operation reports success, so the
interrupted failure was neither reported nor left after one attempt. -/
theorem C8_eintr_retried :
    createBridge true [IoctlRes.eintr, IoctlRes.success] "br0" =
      some ⟨true, [KernelOp.addbr "br0", KernelOp.addbr "br0"]⟩ ∧
    ([KernelOp.addbr "br0", KernelOp.addbr "br0"] : List KernelOp).length ≠ 1 := by
  exact ⟨rfl, by simp⟩

/-- C8, amended: a kernel request that fails otherwise than with EINTR is
reported to the caller as-is after the attempt that produced it, with no
further attempt; however the four mutation operations automatically
re-issue a request that fails with EINTR (TEMP_FAILURE_RETRY): after k
interrupted attempts followed by a non-interrupted outcome r they have
issued k + 1 requests and report r.  The two enumeration requests are
issued exactly once, with no retry wrapper. -/
theorem C8_single_attempt_amended (k : Nat) (r : IoctlRes)
    (rs : List IoctlRes) (nameToIndex : String → Nat) (garbage : List Int)
    (kp : Option (List Int)) (f : Int → Option String)
    (brName ifName : String) (v : List String)
    (hr : r ≠ IoctlRes.eintr) (hidx : nameToIndex ifName ≠ 0) :
    createBridge true (List.replicate k IoctlRes.eintr ++ r :: rs) brName =
      some ⟨r = IoctlRes.success,
        List.replicate (k + 1) (KernelOp.addbr brName)⟩ ∧
    deleteBridge true (List.replicate k IoctlRes.eintr ++ r :: rs) brName =
      some ⟨r = IoctlRes.success,
        List.replicate (k + 1) (KernelOp.delbr brName)⟩ ∧
    addIfaceToBridge true nameToIndex
        (List.replicate k IoctlRes.eintr ++ r :: rs) brName ifName =
      some ⟨r = IoctlRes.success,
        List.replicate (k + 1)
          (KernelOp.addif (strlcpy brName IFNAMSIZ) (nameToIndex ifName))⟩ ∧
    removeIfaceFromBridge true nameToIndex
        (List.replicate k IoctlRes.eintr ++ r :: rs) brName ifName =
      some ⟨r = IoctlRes.success,
        List.replicate (k + 1)
          (KernelOp.delif (strlcpy brName IFNAMSIZ) (nameToIndex ifName))⟩ ∧
    (GetBridges true garbage kp f v).trace = [KernelOp.getBridges] ∧
    (GetInterfacesInBridge true garbage kp f brName v).trace =
      [KernelOp.getPortList (strlcpy brName IFNAMSIZ)] := by
  have ht := tempFailureRetry_eintr_append k r rs hr
  refine ⟨?_, ?_, ?_, ?_, ?_, ?_⟩
  · simp [createBridge, sockOutcomes, ht]
  · simp [deleteBridge, sockOutcomes, ht]
  · simp [addIfaceToBridge, hidx, sockOutcomes, ht]
  · simp [removeIfaceFromBridge, hidx, sockOutcomes, ht]
  · cases kp <;> simp [GetBridges]
  · cases kp <;> simp [GetInterfacesInBridge]

/-- C8, witness for the amended theorem at a concrete input: one
interrupted attempt followed by a plain failure. -/
theorem C8_single_attempt_amended_witness :
    (IoctlRes.failure ≠ IoctlRes.eintr) ∧
    ((fun _ : String => (5 : Nat)) "wlan0" ≠ 0) ∧
    createBridge true
        (List.replicate 1 IoctlRes.eintr ++ IoctlRes.failure :: []) "br0" =
      some ⟨IoctlRes.failure = IoctlRes.success,
        List.replicate 2 (KernelOp.addbr "br0")⟩ := by
  have h := C8_single_attempt_amended 1 IoctlRes.failure []
    (fun _ => 5) [] none (fun _ => none) "br0" "wlan0" []
    (by decide) (by decide)
  exact ⟨by decide, by decide, h.1⟩

end BridgeTool.Claims

namespace BridgeTool

theorem filterMap_replicate_some {α β : Type} (g : α → Option β) (a : α)
    (b : β) (h : g a = some b) (n : Nat) :
    (List.replicate n a).filterMap g = List.replicate n b := by
  induction n with
  | zero => rfl
  | succ n ih => simp [List.replicate_succ, h, ih]

end BridgeTool

namespace BridgeTool.Claims

set_option maxRecDepth 8192 in
theorem C1_memset_clears_quarter_of_buffer :
    (memsetBuffer (List.replicate 1024 7)).take 256 = List.replicate 256 0 ∧
    (memsetBuffer (List.replicate 1024 7)).drop 256 = List.replicate 768 7 ∧
    GetInterfacesInBridge true (List.replicate 1024 7) (some [])
        (fun i => if i = 7 then some "ghost" else none) "br0" [] =
      ⟨true, [KernelOp.getPortList "br0"], List.replicate 768 "ghost"⟩ := by
  have e : memsetBuffer (List.replicate 1024 7) =
      List.replicate 256 0 ++ List.replicate 768 7 := by
    rw [memsetBuffer_eq, List.drop_replicate]
  have hres : resolveSlot (fun i => if i = (7:Int) then some "ghost" else none) 7
      = some "ghost" := rfl
  refine ⟨?_, ?_, ?_⟩
  · rw [e, List.take_append_eq_append_take]
    simp only [List.length_replicate, Nat.sub_self, List.take_zero,
      List.take_replicate, Nat.min_self, Nat.zero_min, List.replicate_zero,
      List.append_nil]
  · rw [e, List.drop_append_eq_append_drop]
    simp only [List.length_replicate, Nat.sub_self, List.drop_replicate,
      List.replicate_zero, List.nil_append, List.drop_zero]
  · have hbuf : writeSlots (memsetBuffer (List.replicate 1024 7)) [] =
        List.replicate 256 0 ++ List.replicate 768 7 := by
      rw [writeSlots]
      simp only [List.length_nil, List.drop_zero, List.nil_append]
      exact e
    show (⟨true, [KernelOp.getPortList (strlcpy "br0" IFNAMSIZ)],
        [] ++ ((writeSlots (memsetBuffer (List.replicate 1024 7)) []).take
          MAX_PORTS).filterMap
          (resolveSlot (fun i => if i = 7 then some "ghost" else none))⟩ :
        EnumResult) =
      ⟨true, [KernelOp.getPortList "br0"], List.replicate 768 "ghost"⟩
    rw [hbuf]
    have hlen : (List.replicate 256 (0:Int) ++ List.replicate 768 7).length ≤
        MAX_PORTS := by
      simp only [List.length_append, List.length_replicate, MAX_PORTS]
      omega
    have hs : strlcpy "br0" IFNAMSIZ = "br0" := by decide
    rw [List.take_of_length_le hlen, List.nil_append, List.filterMap_append,
      filterMap_resolveSlot_replicate_zero,
      filterMap_replicate_some _ _ _ hres, List.nil_append, hs]

theorem C4_enumeration_exact_filter (ws garbage : List Int)
    (f : Int → Option String) (brName : String) (v : List String)
    (hws : ws.length ≤ MAX_PORTS) (hg : garbage.length = MAX_PORTS) :
    GetInterfacesInBridge true garbage (some ws) f brName v =
      ⟨true, [KernelOp.getPortList (strlcpy brName IFNAMSIZ)],
        v ++ (writeSlots (memsetBuffer garbage) ws).filterMap
          (resolveSlot f)⟩ ∧
    GetBridges true (List.replicate MAX_PORTS 0) (some ws) f v =
      ⟨true, [KernelOp.getBridges],
        v ++ (writeSlots (memsetBuffer (List.replicate MAX_PORTS 0))
          ws).filterMap (resolveSlot f)⟩ := by
  have hb : (writeSlots (memsetBuffer garbage) ws).length = MAX_PORTS :=
    writeSlots_length _ _ (memsetBuffer_length garbage hg) hws
  have hz : writeSlots (memsetBuffer (List.replicate MAX_PORTS 0)) ws =
      ws ++ List.replicate (MAX_PORTS - ws.length) 0 := by
    rw [memsetBuffer_zero]; exact writeSlots_zero ws
  constructor
  · simp [GetInterfacesInBridge, List.take_of_length_le hb.le]
  · simp [GetBridges, writeSlots_take_written, hz, List.take_left,
      List.filterMap_append, filterMap_resolveSlot_replicate_zero]

theorem C4_enumeration_exact_filter_witness :
    (([(3:Int), 0, 5, 9] : List Int).length ≤ MAX_PORTS) ∧
    ((List.replicate MAX_PORTS (0:Int)).length = MAX_PORTS) ∧
    GetInterfacesInBridge true (List.replicate MAX_PORTS 0) (some [3, 0, 5, 9])
        sampleResolver "br0" ["keep"] =
      ⟨true, [KernelOp.getPortList (strlcpy "br0" IFNAMSIZ)],
        ["keep"] ++ (writeSlots (memsetBuffer (List.replicate MAX_PORTS 0))
          [3, 0, 5, 9]).filterMap (resolveSlot sampleResolver)⟩ := by
  have h := C4_enumeration_exact_filter [3, 0, 5, 9]
    (List.replicate MAX_PORTS 0) sampleResolver "br0" ["keep"]
    (by decide) (by simp)
  exact ⟨by decide, by simp, h.1⟩

theorem C5_bridges_capacity (allBridges : List Int)
    (f : Int → Option String) (v : List String) :
    (GetBridges true (List.replicate MAX_PORTS 0)
        (some (kernelGetBridges allBridges)) f v).ok = true ∧
    (GetBridges true (List.replicate MAX_PORTS 0)
        (some (kernelGetBridges allBridges)) f v).out =
      v ++ (allBridges.take MAX_PORTS).filterMap (resolveSlot f) ∧
    ((GetBridges true (List.replicate MAX_PORTS 0)
        (some (kernelGetBridges allBridges)) f v).out).length ≤
      v.length + MAX_PORTS := by
  have hout : (GetBridges true (List.replicate MAX_PORTS 0)
      (some (kernelGetBridges allBridges)) f v).out =
      v ++ (allBridges.take MAX_PORTS).filterMap (resolveSlot f) := by
    show v ++ ((writeSlots (memsetBuffer (List.replicate MAX_PORTS 0))
        (kernelGetBridges allBridges)).take
        (kernelGetBridges allBridges).length).filterMap (resolveSlot f) = _
    rw [writeSlots_take_written, kernelGetBridges]
  refine ⟨by simp [GetBridges], hout, ?_⟩
  rw [hout, List.length_append]
  have h1 := List.length_filterMap_le (resolveSlot f) (allBridges.take MAX_PORTS)
  have h2 := List.length_take_le MAX_PORTS allBridges
  omega

theorem C7_long_name_truncated_not_rejected (nameToIndex : String → Nat)
    (garbage : List Int) (kp : Option (List Int)) (f : Int → Option String)
    (brName ifName : String) (v : List String)
    (hlong : 15 < brName.length) (hidx : nameToIndex ifName ≠ 0) :
    (strlcpy brName IFNAMSIZ).length = 15 ∧
    (strlcpy brName IFNAMSIZ).data = brName.data.take 15 ∧
    addIfaceToBridge true nameToIndex [IoctlRes.success] brName ifName =
      some ⟨true,
        [KernelOp.addif (strlcpy brName IFNAMSIZ) (nameToIndex ifName)]⟩ ∧
    removeIfaceFromBridge true nameToIndex [IoctlRes.success] brName ifName =
      some ⟨true,
        [KernelOp.delif (strlcpy brName IFNAMSIZ) (nameToIndex ifName)]⟩ ∧
    (GetInterfacesInBridge true garbage kp f brName v).trace =
      [KernelOp.getPortList (strlcpy brName IFNAMSIZ)] := by
  refine ⟨?_, rfl, ?_, ?_, ?_⟩
  · show (brName.data.take 15).length = 15
    rw [List.length_take]
    have h : 15 < brName.data.length := hlong
    omega
  · simp [addIfaceToBridge, hidx, sockOutcomes, tempFailureRetry]
  · simp [removeIfaceFromBridge, hidx, sockOutcomes, tempFailureRetry]
  · cases kp <;> simp [GetInterfacesInBridge]

theorem C7_long_name_truncated_not_rejected_witness :
    (15 < ("abcdefghijklmnop" : String).length) ∧
    ((fun _ : String => (5 : Nat)) "wlan0" ≠ 0) ∧
    (strlcpy "abcdefghijklmnop" IFNAMSIZ).length = 15 ∧
    addIfaceToBridge true (fun _ => 5) [IoctlRes.success]
        "abcdefghijklmnop" "wlan0" =
      some ⟨true, [KernelOp.addif (strlcpy "abcdefghijklmnop" IFNAMSIZ) 5]⟩ := by
  have h := C7_long_name_truncated_not_rejected (fun _ => 5) [] none
    (fun _ => none) "abcdefghijklmnop" "wlan0" [] (by decide) (by decide)
  exact ⟨by decide, by decide, h.1, h.2.2.1⟩

end BridgeTool.Claims
